import Mathlib

/-!
Shallow embedding of the talon dashboard repository: the client-side
channel and message stores of src/src/app/workspace/[id]/page.tsx, the
sessions proxy route (src/unnamed/part_000) and the direct send route
(src/src/app/api/send/route.ts), together with theorems settling the
frozen claims about them.
-/

namespace Talon

/-- JSON values: the model of what local storage holds and what the HTTP
routes receive and emit.  Numbers are modelled as integers; every numeric
literal appearing in the source routes is an integer. -/
inductive Json where
  | null : Json
  | bool : Bool → Json
  | num : Int → Json
  | str : String → Json
  | arr : List Json → Json
  | obj : List (String × Json) → Json
deriving Repr

/-- Association-list field lookup, first match wins, as a JavaScript
property read on objects built without duplicate keys. -/
def lookupField : List (String × Json) → String → Option Json
  | [], _ => none
  | (k, v) :: rest, key => if k = key then some v else lookupField rest key

/-- Field lookup on a JSON object. -/
def jsonGet : Json → String → Option Json
  | Json.obj fields, key => lookupField fields key
  | _, _ => none

/-- The set of characters matched by the JavaScript regular expression
class backslash-s (whitespace), by code point. -/
def isJsSpace (c : Char) : Bool :=
  c.val == 9 || c.val == 10 || c.val == 11 || c.val == 12 || c.val == 13 ||
  c.val == 32 || c.val == 160 || c.val == 0x1680 ||
  (0x2000 ≤ c.val && c.val ≤ 0x200a) ||
  c.val == 0x2028 || c.val == 0x2029 || c.val == 0x202f || c.val == 0x205f ||
  c.val == 0x3000 || c.val == 0xfeff

/-- JavaScript String.prototype.toLowerCase restricted to the character
transformations relevant here (ASCII letters). -/
def jsLower (s : String) : String :=
  String.mk (s.data.map Char.toLower)

/-- JavaScript String.prototype.trim: strip leading and trailing
whitespace. -/
def jsTrim (s : String) : String :=
  String.mk (((s.data.dropWhile fun c => isJsSpace c).reverse.dropWhile
    fun c => isJsSpace c).reverse)

/-- Core of replace(whitespace-run, hyphen): the Boolean argument records
whether the previous character was part of a whitespace run. -/
def collapseWs : Bool → List Char → List Char
  | _, [] => []
  | prevWs, c :: rest =>
    if isJsSpace c then
      if prevWs then collapseWs true rest
      else '-' :: collapseWs true rest
    else c :: collapseWs false rest

/-- JavaScript s.replace(regex whitespace-plus global, hyphen): each
maximal run of whitespace characters becomes a single hyphen. -/
def replaceWsRuns (s : String) : String :=
  String.mk (collapseWs false s.data)

/-- The channel slug of the source: name.toLowerCase().replace(whitespace
runs, hyphen). -/
def slugify (s : String) : String :=
  replaceWsRuns (jsLower s)

/-- The Channel record of the workspace-channels component. -/
structure Channel where
  id : String
  name : String
  description : Option String := none
  sessionKey : Option String := none
  lastMessage : Option String := none
  lastActivity : Option String := none
  unread : Option Int := none
deriving DecidableEq, Repr

/-- DEFAULT_CHANNELS of the source: name and description pairs. -/
def DEFAULT_CHANNELS : List (String × String) :=
  [("general", "General discussion"),
   ("tasks", "Task tracking and todos"),
   ("research", "Research notes and findings"),
   ("ideas", "Brainstorming and ideas")]

/-- Seeding of the defaults on first access: each default channel gets
id = workspaceId ++ hyphen ++ name. -/
def seedDefaults (workspaceId : String) : List Channel :=
  DEFAULT_CHANNELS.map fun ch =>
    { id := workspaceId ++ "-" ++ ch.1, name := ch.1, description := some ch.2 }

/-- handleCreateChannel of the source: no-op when the trimmed name is
empty; otherwise appends a channel whose id lower-cases and hyphenates the
raw name and whose name lower-cases and hyphenates the trimmed name. -/
def handleCreateChannel (workspaceId newChannelName : String)
    (channels : List Channel) : List Channel :=
  if jsTrim newChannelName = "" then channels
  else
    channels ++
      [{ id := workspaceId ++ "-" ++ slugify newChannelName,
         name := slugify (jsTrim newChannelName),
         description := some "" }]

/-- handleDeleteChannel of the source: no-op when at most one channel
remains, otherwise keeps exactly the channels whose id differs. -/
def handleDeleteChannel (channelId : String)
    (channels : List Channel) : List Channel :=
  if channels.length ≤ 1 then channels
  else channels.filter fun ch => ch.id != channelId

/-- Browser local storage: a partial map from keys to stored JSON values
(JSON.stringify and JSON.parse are modelled at the level of JSON trees). -/
def Store : Type := String → Option Json

/-- localStorage.setItem. -/
def setItem (store : Store) (key : String) (v : Json) : Store :=
  fun k => if k = key then some v else store k

/-- An optional string field: JSON.stringify omits a field whose value is
undefined. -/
def optStrField (key : String) : Option String → List (String × Json)
  | none => []
  | some s => [(key, Json.str s)]

/-- An optional numeric field, likewise omitted when undefined. -/
def optNumField (key : String) : Option Int → List (String × Json)
  | none => []
  | some n => [(key, Json.num n)]

/-- JSON image of a Channel record under JSON.stringify. -/
def encodeChannel (c : Channel) : Json :=
  Json.obj
    ([("id", Json.str c.id), ("name", Json.str c.name)] ++
      optStrField "description" c.description ++
      optStrField "sessionKey" c.sessionKey ++
      optStrField "lastMessage" c.lastMessage ++
      optStrField "lastActivity" c.lastActivity ++
      optNumField "unread" c.unread)

/-- JSON image of a channel list. -/
def encodeChannels (l : List Channel) : Json :=
  Json.arr (l.map encodeChannel)

/-- Read an optional string field back. -/
def getStrField (fields : List (String × Json)) (key : String) : Option String :=
  match lookupField fields key with
  | some (Json.str s) => some s
  | _ => none

/-- Read an optional numeric field back. -/
def getNumField (fields : List (String × Json)) (key : String) : Option Int :=
  match lookupField fields key with
  | some (Json.num n) => some n
  | _ => none

/-- JSON.parse of a single stored channel; none models the unguarded
failure path on malformed data. -/
def decodeChannel (j : Json) : Option Channel :=
  match j with
  | Json.obj fields =>
    match lookupField fields "id", lookupField fields "name" with
    | some (Json.str i), some (Json.str n) =>
      some { id := i, name := n,
             description := getStrField fields "description",
             sessionKey := getStrField fields "sessionKey",
             lastMessage := getStrField fields "lastMessage",
             lastActivity := getStrField fields "lastActivity",
             unread := getNumField fields "unread" }
    | _, _ => none
  | _ => none

/-- Element-wise parse of a list of stored channels; any failing element
fails the whole parse. -/
def decodeChannelList : List Json → Option (List Channel)
  | [] => some []
  | j :: rest =>
    match decodeChannel j, decodeChannelList rest with
    | some c, some cs => some (c :: cs)
    | _, _ => none

/-- JSON.parse of a stored channel list. -/
def decodeChannels (j : Json) : Option (List Channel) :=
  match j with
  | Json.arr js => decodeChannelList js
  | _ => none

/-- The workspace-scoped storage key of the channel store. -/
def channelsKey (workspaceId : String) : String :=
  "clawhub_channels_" ++ workspaceId

/-- First read of the channel store for a workspace: parse the stored
list when the key is present, otherwise seed the four defaults and
persist them immediately. -/
def loadChannels (workspaceId : String) (store : Store) :
    Option (List Channel) × Store :=
  match store (channelsKey workspaceId) with
  | some j => (decodeChannels j, store)
  | none =>
    (some (seedDefaults workspaceId),
     setItem store (channelsKey workspaceId)
       (encodeChannels (seedDefaults workspaceId)))

/-- Message roles. -/
inductive Role where
  | user : Role
  | agent : Role
  | system : Role
deriving DecidableEq, Repr

/-- The string form a role takes in JSON. -/
def Role.toStr : Role → String
  | Role.user => "user"
  | Role.agent => "agent"
  | Role.system => "system"

/-- Parse a role string. -/
def roleOfStr (s : String) : Option Role :=
  if s = "user" then some Role.user
  else if s = "agent" then some Role.agent
  else if s = "system" then some Role.system
  else none

/-- The Message record of the workspace page. -/
structure Message where
  id : String
  role : Role
  content : String
  time : String
  channelId : String
deriving DecidableEq, Repr

/-- JSON image of a Message under JSON.stringify; every field is always
present. -/
def encodeMessage (m : Message) : Json :=
  Json.obj
    [("id", Json.str m.id), ("role", Json.str m.role.toStr),
     ("content", Json.str m.content), ("time", Json.str m.time),
     ("channelId", Json.str m.channelId)]

/-- JSON image of a message list. -/
def encodeMessages (l : List Message) : Json :=
  Json.arr (l.map encodeMessage)

/-- JSON.parse of a single stored message. -/
def decodeMessage (j : Json) : Option Message :=
  match j with
  | Json.obj fields =>
    match lookupField fields "id", lookupField fields "role",
          lookupField fields "content", lookupField fields "time",
          lookupField fields "channelId" with
    | some (Json.str i), some (Json.str r), some (Json.str c),
      some (Json.str t), some (Json.str ch) =>
      match roleOfStr r with
      | some role =>
        some { id := i, role := role, content := c, time := t, channelId := ch }
      | none => none
    | _, _, _, _, _ => none
  | _ => none

/-- Element-wise parse of a list of stored messages. -/
def decodeMessageList : List Json → Option (List Message)
  | [] => some []
  | j :: rest =>
    match decodeMessage j, decodeMessageList rest with
    | some m, some ms => some (m :: ms)
    | _, _ => none

/-- JSON.parse of a stored message list. -/
def decodeMessages (j : Json) : Option (List Message) :=
  match j with
  | Json.arr js => decodeMessageList js
  | _ => none

/-- The channel-scoped storage key of the message store. -/
def messagesKey (channelId : String) : String :=
  "clawhub_messages_" ++ channelId

/-- One send or receive: append the message to the in-memory list of its
channel and re-persist the full list under the channel-scoped key (the
save effect of the source runs after every change). -/
def appendMessage (channelId : String) (m : Message)
    (mem : List Message) (store : Store) : List Message × Store :=
  (mem ++ [m],
   setItem store (messagesKey channelId) (encodeMessages (mem ++ [m])))

/-- Append a sequence of messages, persisting after each append. -/
def appendMessages (channelId : String) (ms : List Message)
    (mem : List Message) (store : Store) : List Message × Store :=
  ms.foldl (fun acc m => appendMessage channelId m acc.1 acc.2) (mem, store)

/-- Reload of a channel message list: an absent key leaves the in-memory
list empty; a present key is parsed (none models the unguarded failure on
malformed data). -/
def loadMessages (store : Store) (channelId : String) : Option (List Message) :=
  match store (messagesKey channelId) with
  | none => some []
  | some j => decodeMessages j

/-- The opaque gateway response to the single outbound call a route makes:
the ok flag, the HTTP status and the JSON payload of that response. -/
structure GatewayResp where
  ok : Bool
  status : Nat
  json : Json

/-- An HTTP response produced by a route. -/
structure JsResponse where
  status : Nat
  body : Json

/-- Outcome of one route invocation: the response sent to the caller and
the payload forwarded to the gateway; none means the gateway was never
contacted. -/
structure ProxyResult where
  response : JsResponse
  forwarded : Option Json

/-- JavaScript falsiness of an optional string: an absent value and the
empty string are both falsy. -/
def isFalsyStr : Option String → Bool
  | none => true
  | some s => s == ""

/-- A JSON error envelope. -/
def errBody (msg : String) : Json :=
  Json.obj [("error", Json.str msg)]

/-- Body of a POST to the sessions proxy send action; every field the
source destructures. -/
structure SendBody where
  sessionKey : Option String := none
  agentId : Option String := none
  label : Option String := none
  message : Option String := none
  timeoutSeconds : Option Int := none

/-- The body the send action forwards to the gateway: the destructured
fields re-serialized, timeoutSeconds defaulting to 120. -/
def sendForwardBody (b : SendBody) : Json :=
  Json.obj
    (optStrField "sessionKey" b.sessionKey ++
     optStrField "agentId" b.agentId ++
     optStrField "label" b.label ++
     optStrField "message" b.message ++
     [("timeoutSeconds", Json.num (b.timeoutSeconds.getD 120))])

/-- The sessions proxy send action: 400 without contacting the gateway
when message is falsy; otherwise forward and reshape the gateway reply,
passing the gateway status through on failure. -/
def sendAction (b : SendBody) (gw : GatewayResp) : ProxyResult :=
  if isFalsyStr b.message then
    { response := { status := 400, body := errBody "message required" },
      forwarded := none }
  else if gw.ok then
    { response := { status := 200, body := gw.json },
      forwarded := some (sendForwardBody b) }
  else
    { response := { status := gw.status, body := errBody "Send failed" },
      forwarded := some (sendForwardBody b) }

/-- Body of a POST to the sessions proxy spawn action. -/
structure SpawnBody where
  task : Option String := none
  agentId : Option String := none
  label : Option String := none
  model : Option String := none
  thinking : Option String := none
  runTimeoutSeconds : Option Int := none
  cleanup : Option String := none

/-- The body the spawn action forwards: runTimeoutSeconds defaults to 300
and cleanup to keep when absent. -/
def spawnForwardBody (b : SpawnBody) : Json :=
  Json.obj
    (optStrField "task" b.task ++
     optStrField "agentId" b.agentId ++
     optStrField "label" b.label ++
     optStrField "model" b.model ++
     optStrField "thinking" b.thinking ++
     [("runTimeoutSeconds", Json.num (b.runTimeoutSeconds.getD 300)),
      ("cleanup", Json.str (b.cleanup.getD "keep"))])

/-- The sessions proxy spawn action. -/
def spawnAction (b : SpawnBody) (gw : GatewayResp) : ProxyResult :=
  if isFalsyStr b.task then
    { response := { status := 400, body := errBody "task required" },
      forwarded := none }
  else if gw.ok then
    { response := { status := 200, body := gw.json },
      forwarded := some (spawnForwardBody b) }
  else
    { response := { status := gw.status, body := errBody "Spawn failed" },
      forwarded := some (spawnForwardBody b) }

/-- The query the history action forwards: sessionKey, limit defaulting
to 50, includeTools only when its query value is the string true. -/
def historyForwardQuery (sessionKey limit includeTools : Option String) : Json :=
  Json.obj
    ([("sessionKey", Json.str (sessionKey.getD "")),
      ("limit", Json.str (limit.getD "50"))] ++
     (if includeTools == some "true"
      then [("includeTools", Json.str "true")] else []))

/-- The sessions proxy history action: 400 without contacting the gateway
when sessionKey is falsy; a non-OK gateway reply degrades silently to an
empty message list with HTTP 200. -/
def historyAction (sessionKey limit includeTools : Option String)
    (gw : GatewayResp) : ProxyResult :=
  if isFalsyStr sessionKey then
    { response := { status := 400, body := errBody "sessionKey required" },
      forwarded := none }
  else if gw.ok then
    { response := { status := 200, body := gw.json },
      forwarded := some (historyForwardQuery sessionKey limit includeTools) }
  else
    { response := { status := 200,
                    body := Json.obj [("messages", Json.arr [])] },
      forwarded := some (historyForwardQuery sessionKey limit includeTools) }

/-- Body of a POST to the standalone direct send route. -/
structure DirectSendBody where
  agentId : Option String := none
  message : Option String := none
  sessionKey : Option String := none
  timeoutSeconds : Option Int := none

/-- The body the direct send route forwards, timeoutSeconds defaulting
to 120. -/
def directForwardBody (b : DirectSendBody) : Json :=
  Json.obj
    (optStrField "agentId" b.agentId ++
     optStrField "sessionKey" b.sessionKey ++
     optStrField "message" b.message ++
     [("timeoutSeconds", Json.num (b.timeoutSeconds.getD 120))])

/-- The direct send route: message is required, then at least one of
agentId and sessionKey; both checks reject with 400 before any gateway
contact; a non-OK gateway reply passes its status through. -/
def directSendPOST (b : DirectSendBody) (gw : GatewayResp) : ProxyResult :=
  if isFalsyStr b.message then
    { response := { status := 400, body := errBody "Message is required" },
      forwarded := none }
  else if isFalsyStr b.agentId && isFalsyStr b.sessionKey then
    { response := { status := 400,
                    body := errBody "Either agentId or sessionKey is required" },
      forwarded := none }
  else if gw.ok then
    { response := { status := 200, body := gw.json },
      forwarded := some (directForwardBody b) }
  else
    { response := { status := gw.status,
                    body := errBody ("Gateway error: " ++ toString gw.status) },
      forwarded := some (directForwardBody b) }

/-! ### Helper lemmas -/

/-- Parsing the JSON image of a channel recovers the channel. -/
theorem decodeChannel_encodeChannel (c : Channel) :
    decodeChannel (encodeChannel c) = some c := by
  rcases c with ⟨i, n, d, sk, lm, la, u⟩
  rcases d with _ | d <;> rcases sk with _ | sk <;> rcases lm with _ | lm <;>
    rcases la with _ | la <;> rcases u with _ | u <;>
    simp [encodeChannel, decodeChannel, optStrField, optNumField,
      getStrField, getNumField, lookupField]

/-- Parsing the JSON image of a channel list recovers the list. -/
theorem decodeChannels_encodeChannels (l : List Channel) :
    decodeChannels (encodeChannels l) = some l := by
  induction l with
  | nil => simp [encodeChannels, decodeChannels, decodeChannelList]
  | cons c t ih =>
    simp only [encodeChannels, decodeChannels, List.map_cons,
      decodeChannelList, decodeChannel_encodeChannel] at *
    simp [ih]

/-- Parsing the JSON image of a message recovers the message. -/
theorem decodeMessage_encodeMessage (m : Message) :
    decodeMessage (encodeMessage m) = some m := by
  rcases m with ⟨i, r, c, t, ch⟩
  cases r <;>
    simp [encodeMessage, decodeMessage, lookupField, roleOfStr, Role.toStr]

/-- Parsing the JSON image of a message list recovers the list. -/
theorem decodeMessages_encodeMessages (l : List Message) :
    decodeMessages (encodeMessages l) = some l := by
  induction l with
  | nil => simp [encodeMessages, decodeMessages, decodeMessageList]
  | cons m t ih =>
    simp only [encodeMessages, decodeMessages, List.map_cons,
      decodeMessageList, decodeMessage_encodeMessage] at *
    simp [ih]

/-- Left cancellation of string append. -/
theorem string_append_left_cancel {s t u : String} (h : s ++ t = s ++ u) :
    t = u := by
  have h2 := congrArg String.data h
  simp [String.data_append] at h2
  exact String.ext h2

/-- Looking a key up past an optional field with a different key skips
that field. -/
theorem lookupField_optStrField_ne (k : String) (o : Option String)
    (rest : List (String × Json)) (key : String) (h : k ≠ key) :
    lookupField (optStrField k o ++ rest) key = lookupField rest key := by
  cases o <;> simp [optStrField, lookupField, h]

/-- An empty local storage. -/
def emptyStore : Store := fun _ => none

/-- A gateway that replies OK. -/
def gwOkW : GatewayResp := { ok := true, status := 200, json := Json.null }

/-- A gateway that fails with HTTP 503. -/
def gw503W : GatewayResp := { ok := false, status := 503, json := Json.null }

/-- A sample chat message. -/
def msgW : Message :=
  { id := "msg-1", role := Role.user, content := "hello",
    time := "12:00:00", channelId := "c1" }

/-! ### Claim theorems -/

/-- C3: for a workspace id with no persisted channel data, the first read
of the channel store yields exactly the four default channels named
general, tasks, research, ideas in that order, each with id equal to the
workspace id, a hyphen and the name, and persists exactly that list under
the workspace-scoped storage key, from which it parses back verbatim. -/
theorem first_read_seeds_defaults (w : String) (store : Store)
    (h : store (channelsKey w) = none) :
    (loadChannels w store).1 = some (seedDefaults w) ∧
    (seedDefaults w).map Channel.name = ["general", "tasks", "research", "ideas"] ∧
    (seedDefaults w).map Channel.id =
      [w ++ "-" ++ "general", w ++ "-" ++ "tasks",
       w ++ "-" ++ "research", w ++ "-" ++ "ideas"] ∧
    (loadChannels w store).2 =
      setItem store (channelsKey w) (encodeChannels (seedDefaults w)) ∧
    decodeChannels (encodeChannels (seedDefaults w)) = some (seedDefaults w) := by
  refine ⟨?_, ?_, ?_, ?_, decodeChannels_encodeChannels _⟩ <;>
    simp [loadChannels, h, seedDefaults, DEFAULT_CHANNELS]

/-- Witness for C3 at workspace id w and an empty store. -/
theorem first_read_seeds_defaults_witness :
    (loadChannels "w" emptyStore).1 = some (seedDefaults "w") ∧
    (seedDefaults "w").map Channel.name = ["general", "tasks", "research", "ideas"] ∧
    (seedDefaults "w").map Channel.id =
      ["w" ++ "-" ++ "general", "w" ++ "-" ++ "tasks",
       "w" ++ "-" ++ "research", "w" ++ "-" ++ "ideas"] ∧
    (loadChannels "w" emptyStore).2 =
      setItem emptyStore (channelsKey "w") (encodeChannels (seedDefaults "w")) ∧
    decodeChannels (encodeChannels (seedDefaults "w")) = some (seedDefaults "w") :=
  first_read_seeds_defaults "w" emptyStore rfl

/-- C9: appending any sequence of messages to a channel whose in-memory
list matches its persisted state, then reloading from the channel-scoped
storage key, reproduces exactly the extended list, contents and order
included. -/
theorem messages_persist_roundtrip (channelId : String)
    (ms mem0 : List Message) (store : Store)
    (h : loadMessages store channelId = some mem0) :
    (appendMessages channelId ms mem0 store).1 = mem0 ++ ms ∧
    loadMessages (appendMessages channelId ms mem0 store).2 channelId =
      some (mem0 ++ ms) := by
  induction ms generalizing mem0 store with
  | nil => simpa [appendMessages] using h
  | cons m rest ih =>
    have h2 : loadMessages
        (setItem store (messagesKey channelId) (encodeMessages (mem0 ++ [m])))
        channelId = some (mem0 ++ [m]) := by
      simp [loadMessages, setItem, decodeMessages_encodeMessages]
    have h3 := ih (mem0 ++ [m])
      (setItem store (messagesKey channelId) (encodeMessages (mem0 ++ [m]))) h2
    simpa [appendMessages, appendMessage] using h3

/-- Witness for C9: one message appended over an empty store. -/
theorem messages_persist_roundtrip_witness :
    (appendMessages "c1" [msgW] [] emptyStore).1 = [] ++ [msgW] ∧
    loadMessages (appendMessages "c1" [msgW] [] emptyStore).2 "c1" =
      some ([] ++ [msgW]) :=
  messages_persist_roundtrip "c1" [msgW] [] emptyStore rfl

/-- C5: a POST to the sessions proxy send action whose message is absent
or the empty string returns HTTP 400 with a descriptive error body and
never contacts the gateway, whatever the other fields and the gateway
behaviour are. -/
theorem send_missing_message_400 (b : SendBody) (gw : GatewayResp)
    (h : b.message = none ∨ b.message = some "") :
    (sendAction b gw).response.status = 400 ∧
    (sendAction b gw).response.body = errBody "message required" ∧
    (sendAction b gw).forwarded = none := by
  have hf : isFalsyStr b.message = true := by
    rcases h with h | h <;> simp [isFalsyStr, h]
  simp [sendAction, hf]

/-- Witness for C5: empty message, every other field populated, gateway
healthy. -/
theorem send_missing_message_400_witness :
    (sendAction
      { sessionKey := some "sk", agentId := some "a", label := some "L",
        message := some "", timeoutSeconds := some 5 } gwOkW).response.status = 400 ∧
    (sendAction
      { sessionKey := some "sk", agentId := some "a", label := some "L",
        message := some "", timeoutSeconds := some 5 } gwOkW).response.body =
      errBody "message required" ∧
    (sendAction
      { sessionKey := some "sk", agentId := some "a", label := some "L",
        message := some "", timeoutSeconds := some 5 } gwOkW).forwarded = none :=
  send_missing_message_400
    { sessionKey := some "sk", agentId := some "a", label := some "L",
      message := some "", timeoutSeconds := some 5 } gwOkW (Or.inr rfl)

/-- C6: a GET to the sessions proxy history action with the sessionKey
query parameter absent returns HTTP 400 with the sessionKey-required
error and never contacts the gateway; with a present non-empty sessionKey
and a non-OK gateway reply it degrades silently to HTTP 200 with an empty
message list. -/
theorem history_contract (limit tools : Option String) (s : String)
    (gw : GatewayResp) (hs : s ≠ "") :
    (historyAction none limit tools gw).response.status = 400 ∧
    (historyAction none limit tools gw).response.body =
      errBody "sessionKey required" ∧
    (historyAction none limit tools gw).forwarded = none ∧
    (gw.ok = false →
      (historyAction (some s) limit tools gw).response.status = 200 ∧
      (historyAction (some s) limit tools gw).response.body =
        Json.obj [("messages", Json.arr [])]) := by
  refine ⟨?_, ?_, ?_, fun hgw => ⟨?_, ?_⟩⟩
  · simp [historyAction, isFalsyStr]
  · simp [historyAction, isFalsyStr]
  · simp [historyAction, isFalsyStr]
  · simp [historyAction, isFalsyStr, hs, hgw]
  · simp [historyAction, isFalsyStr, hs, hgw]

/-- Witness for C6: a concrete session key against a failing gateway. -/
theorem history_contract_witness :
    (historyAction none none none gw503W).response.status = 400 ∧
    (historyAction none none none gw503W).response.body =
      errBody "sessionKey required" ∧
    (historyAction none none none gw503W).forwarded = none ∧
    (historyAction (some "sess") none none gw503W).response.status = 200 ∧
    (historyAction (some "sess") none none gw503W).response.body =
      Json.obj [("messages", Json.arr [])] :=
  ⟨(history_contract none none "sess" gw503W (by decide)).1,
   (history_contract none none "sess" gw503W (by decide)).2.1,
   (history_contract none none "sess" gw503W (by decide)).2.2.1,
   ((history_contract none none "sess" gw503W (by decide)).2.2.2 rfl).1,
   ((history_contract none none "sess" gw503W (by decide)).2.2.2 rfl).2⟩

/-- C7: a POST to the sessions proxy spawn action with a falsy task
returns HTTP 400 without contacting the gateway; with a truthy task and a
non-OK gateway the gateway status is passed through with the
Spawn-failed error body; the forwarded body defaults runTimeoutSeconds
to 300 and cleanup to keep when those fields are absent. -/
theorem spawn_contract (b : SpawnBody) (gw : GatewayResp) :
    (isFalsyStr b.task = true →
      (spawnAction b gw).response.status = 400 ∧
      (spawnAction b gw).response.body = errBody "task required" ∧
      (spawnAction b gw).forwarded = none) ∧
    (isFalsyStr b.task = false → gw.ok = false →
      (spawnAction b gw).response.status = gw.status ∧
      (spawnAction b gw).response.body = errBody "Spawn failed" ∧
      (spawnAction b gw).forwarded = some (spawnForwardBody b)) ∧
    (b.runTimeoutSeconds = none →
      jsonGet (spawnForwardBody b) "runTimeoutSeconds" = some (Json.num 300)) ∧
    (b.cleanup = none →
      jsonGet (spawnForwardBody b) "cleanup" = some (Json.str "keep")) := by
  refine ⟨fun ht => ?_, fun ht hgw => ?_, fun hr => ?_, fun hc => ?_⟩
  · simp [spawnAction, ht]
  · simp [spawnAction, ht, hgw]
  · simp [spawnForwardBody, jsonGet, hr, lookupField_optStrField_ne,
      lookupField]
  · simp [spawnForwardBody, jsonGet, hc, lookupField_optStrField_ne,
      lookupField]

/-- Witness for C7: both the missing-task branch and the 503 passthrough
branch with defaulted runTimeoutSeconds and cleanup, at concrete
bodies. -/
theorem spawn_contract_witness :
    ((spawnAction { task := none : SpawnBody } gw503W).response.status = 400 ∧
      (spawnAction { task := none : SpawnBody } gw503W).response.body =
        errBody "task required" ∧
      (spawnAction { task := none : SpawnBody } gw503W).forwarded = none) ∧
    ((spawnAction { task := some "build" : SpawnBody } gw503W).response.status =
        gw503W.status ∧
      (spawnAction { task := some "build" : SpawnBody } gw503W).response.body =
        errBody "Spawn failed" ∧
      (spawnAction { task := some "build" : SpawnBody } gw503W).forwarded =
        some (spawnForwardBody { task := some "build" : SpawnBody })) ∧
    jsonGet (spawnForwardBody { task := some "build" : SpawnBody })
      "runTimeoutSeconds" = some (Json.num 300) ∧
    jsonGet (spawnForwardBody { task := some "build" : SpawnBody })
      "cleanup" = some (Json.str "keep") :=
  ⟨(spawn_contract { task := none } gw503W).1 rfl,
   (spawn_contract { task := some "build" } gw503W).2.1 rfl rfl,
   (spawn_contract { task := some "build" } gw503W).2.2.1 rfl,
   (spawn_contract { task := some "build" } gw503W).2.2.2 rfl⟩

/-- C8: the direct send route forwards to the gateway exactly when the
body has a truthy message and a truthy agentId or sessionKey; a falsy
message, or falsy agentId and sessionKey together, yield HTTP 400 with a
descriptive error and no gateway contact. -/
theorem direct_send_contract (b : DirectSendBody) (gw : GatewayResp) :
    ((directSendPOST b gw).forwarded ≠ none ↔
      isFalsyStr b.message = false ∧
        (isFalsyStr b.agentId = false ∨ isFalsyStr b.sessionKey = false)) ∧
    (isFalsyStr b.message = true →
      (directSendPOST b gw).response.status = 400 ∧
      (directSendPOST b gw).response.body = errBody "Message is required" ∧
      (directSendPOST b gw).forwarded = none) ∧
    (isFalsyStr b.message = false → isFalsyStr b.agentId = true →
      isFalsyStr b.sessionKey = true →
      (directSendPOST b gw).response.status = 400 ∧
      (directSendPOST b gw).response.body =
        errBody "Either agentId or sessionKey is required" ∧
      (directSendPOST b gw).forwarded = none) ∧
    (isFalsyStr b.message = false →
      (isFalsyStr b.agentId = false ∨ isFalsyStr b.sessionKey = false) →
      (directSendPOST b gw).forwarded = some (directForwardBody b)) := by
  cases hm : isFalsyStr b.message <;> cases ha : isFalsyStr b.agentId <;>
    cases hs : isFalsyStr b.sessionKey <;> cases hgw : gw.ok <;>
    simp [directSendPOST, hm, ha, hs, hgw]

/-- Witness for C8: the forwarding case, the missing-message case and the
missing-identifiers case, at concrete bodies. -/
theorem direct_send_contract_witness :
    (directSendPOST { message := some "hi", agentId := some "a" } gwOkW).forwarded =
      some (directForwardBody { message := some "hi", agentId := some "a" }) ∧
    ((directSendPOST { message := none : DirectSendBody } gwOkW).response.status = 400 ∧
      (directSendPOST { message := none : DirectSendBody } gwOkW).response.body =
        errBody "Message is required" ∧
      (directSendPOST { message := none : DirectSendBody } gwOkW).forwarded = none) ∧
    ((directSendPOST { message := some "hi" : DirectSendBody } gwOkW).response.status = 400 ∧
      (directSendPOST { message := some "hi" : DirectSendBody } gwOkW).response.body =
        errBody "Either agentId or sessionKey is required" ∧
      (directSendPOST { message := some "hi" : DirectSendBody } gwOkW).forwarded = none) :=
  ⟨(direct_send_contract { message := some "hi", agentId := some "a" } gwOkW).2.2.2
      rfl (Or.inl rfl),
   (direct_send_contract { message := none } gwOkW).2.1 rfl,
   (direct_send_contract { message := some "hi" } gwOkW).2.2.1 rfl rfl rfl⟩

/-- C10: a POST to the sessions proxy send action with a truthy message
and neither sessionKey nor agentId is not rejected: it is forwarded with
both identifiers absent from the forwarded body, and the response follows
the gateway contract; the identifier requirement is enforced only by the
direct send route, which rejects the same content with HTTP 400 unsent. -/
theorem proxy_send_no_identifier_check (b : SendBody) (gw : GatewayResp)
    (hm : isFalsyStr b.message = false)
    (hsk : b.sessionKey = none) (ha : b.agentId = none) :
    (sendAction b gw).forwarded = some (sendForwardBody b) ∧
    jsonGet (sendForwardBody b) "sessionKey" = none ∧
    jsonGet (sendForwardBody b) "agentId" = none ∧
    (gw.ok = true → (sendAction b gw).response.status = 200 ∧
      (sendAction b gw).response.body = gw.json) ∧
    (gw.ok = false → (sendAction b gw).response.status = gw.status ∧
      (sendAction b gw).response.body = errBody "Send failed") ∧
    (directSendPOST
      { agentId := none, message := b.message, sessionKey := none,
        timeoutSeconds := b.timeoutSeconds } gw).response.status = 400 ∧
    (directSendPOST
      { agentId := none, message := b.message, sessionKey := none,
        timeoutSeconds := b.timeoutSeconds } gw).forwarded = none := by
  obtain ⟨s, hms, hsne⟩ : ∃ s, b.message = some s ∧ s ≠ "" := by
    cases hmm : b.message with
    | none => rw [hmm] at hm; simp [isFalsyStr] at hm
    | some s =>
      refine ⟨s, rfl, ?_⟩
      rw [hmm] at hm
      simpa [isFalsyStr] using hm
  refine ⟨?_, ?_, ?_, fun hgw => ?_, fun hgw => ?_, ?_, ?_⟩
  · cases hgw : gw.ok <;> simp [sendAction, isFalsyStr, hms, hsne, hgw]
  · cases hl : b.label <;>
      simp [sendForwardBody, jsonGet, hsk, ha, hl, hms, optStrField, lookupField]
  · cases hl : b.label <;>
      simp [sendForwardBody, jsonGet, hsk, ha, hl, hms, optStrField, lookupField]
  · simp [sendAction, isFalsyStr, hms, hsne, hgw]
  · simp [sendAction, isFalsyStr, hms, hsne, hgw]
  · simp [directSendPOST, isFalsyStr, hms, hsne]
  · simp [directSendPOST, isFalsyStr, hms, hsne]

/-- Witness for C10: a body holding only a message, against a healthy
gateway. -/
theorem proxy_send_no_identifier_check_witness :
    (sendAction { message := some "hi" : SendBody } gwOkW).forwarded =
      some (sendForwardBody { message := some "hi" : SendBody }) ∧
    jsonGet (sendForwardBody { message := some "hi" : SendBody })
      "sessionKey" = none ∧
    jsonGet (sendForwardBody { message := some "hi" : SendBody })
      "agentId" = none ∧
    (gwOkW.ok = true →
      (sendAction { message := some "hi" : SendBody } gwOkW).response.status = 200 ∧
      (sendAction { message := some "hi" : SendBody } gwOkW).response.body =
        gwOkW.json) ∧
    (gwOkW.ok = false →
      (sendAction { message := some "hi" : SendBody } gwOkW).response.status =
        gwOkW.status ∧
      (sendAction { message := some "hi" : SendBody } gwOkW).response.body =
        errBody "Send failed") ∧
    (directSendPOST
      { agentId := none, message := some "hi", sessionKey := none,
        timeoutSeconds := none } gwOkW).response.status = 400 ∧
    (directSendPOST
      { agentId := none, message := some "hi", sessionKey := none,
        timeoutSeconds := none } gwOkW).forwarded = none :=
  proxy_send_no_identifier_check { message := some "hi" } gwOkW rfl rfl rfl

/-- The ids of the seeded default channels are pairwise distinct for every
workspace id. -/
theorem seed_ids_nodup (w : String) : ((seedDefaults w).map Channel.id).Nodup := by
  have hmap : (seedDefaults w).map Channel.id =
      (["general", "tasks", "research", "ideas"] : List String).map
        fun x => w ++ "-" ++ x := by
    simp [seedDefaults, DEFAULT_CHANNELS]
  rw [hmap]
  exact List.Nodup.map (fun a b hab => string_append_left_cancel hab) (by decide)

/-- The id list of a delete result is a sublist of the original id
list. -/
theorem delete_ids_sublist (cid : String) (l : List Channel) :
    ((handleDeleteChannel cid l).map Channel.id).Sublist (l.map Channel.id) := by
  unfold handleDeleteChannel
  split
  · exact List.Sublist.refl _
  · exact (List.filter_sublist l).map Channel.id

/-- C1 counterexample: creating the channel name plan twice in workspace w
from the seeded defaults yields a list whose ids are not pairwise
distinct, refuting the claim that every sequence of creates preserves id
uniqueness. -/
theorem create_duplicate_id_counterexample :
    ¬ ((handleCreateChannel "w" "plan"
        (handleCreateChannel "w" "plan" (seedDefaults "w"))).map Channel.id).Nodup := by
  decide

/-- C1 amended: seeding yields pairwise-distinct ids and delete preserves
id distinctness, but create preserves it only when the id it derives from
the new name is not already present in the list. -/
theorem channel_ops_unique_ids (w cid nm : String) (l : List Channel)
    (h : (l.map Channel.id).Nodup) :
    ((seedDefaults w).map Channel.id).Nodup ∧
    ((handleDeleteChannel cid l).map Channel.id).Nodup ∧
    ((w ++ "-" ++ slugify nm) ∉ l.map Channel.id →
      ((handleCreateChannel w nm l).map Channel.id).Nodup) := by
  refine ⟨seed_ids_nodup w, List.Nodup.sublist (delete_ids_sublist cid l) h, ?_⟩
  intro hfresh
  by_cases he : jsTrim nm = ""
  · simpa [handleCreateChannel, he] using h
  · have hmap : (handleCreateChannel w nm l).map Channel.id =
        l.map Channel.id ++ [w ++ "-" ++ slugify nm] := by
      simp [handleCreateChannel, he]
    rw [hmap]
    refine List.nodup_append.mpr ⟨h, List.nodup_singleton _, ?_⟩
    intro a hal hasingle
    rw [List.mem_singleton] at hasingle
    exact hfresh (hasingle ▸ hal)

/-- Witness for C1 amended: the seeded defaults of workspace w, deleting
w-tasks and creating the fresh name plan. -/
theorem channel_ops_unique_ids_witness :
    ((seedDefaults "w").map Channel.id).Nodup ∧
    ((handleDeleteChannel "w-tasks" (seedDefaults "w")).map Channel.id).Nodup ∧
    (("w" ++ "-" ++ slugify "plan") ∉ (seedDefaults "w").map Channel.id →
      ((handleCreateChannel "w" "plan" (seedDefaults "w")).map Channel.id).Nodup) :=
  channel_ops_unique_ids "w" "w-tasks" "plan" (seedDefaults "w") (by decide)

/-- C2 counterexample: from the seeded defaults of workspace w, creating
the name general (whose derived id collides with the default general
channel) and then deleting w-tasks, w-research, w-ideas and w-general
leaves zero channels, refuting the claim that every reachable
channel-store state keeps at least one channel. -/
theorem delete_can_empty_counterexample :
    handleDeleteChannel "w-general"
      (handleDeleteChannel "w-ideas"
        (handleDeleteChannel "w-research"
          (handleDeleteChannel "w-tasks"
            (handleCreateChannel "w" "general" (seedDefaults "w"))))) = [] := by
  decide

/-- C2 amended: deleting from a list of exactly one channel is a no-op,
and deleting from a nonempty list whose ids are pairwise distinct never
empties it; the at-least-one floor can fail only through duplicate ids,
since delete removes every channel carrying the requested id. -/
theorem delete_floor (cid : String) (l : List Channel) :
    (l.length = 1 → handleDeleteChannel cid l = l) ∧
    ((l.map Channel.id).Nodup → l ≠ [] → handleDeleteChannel cid l ≠ []) := by
  constructor
  · intro h1
    simp [handleDeleteChannel, h1]
  · intro hnd hne
    by_cases hlen : l.length ≤ 1
    · simpa [handleDeleteChannel, hlen] using hne
    · rw [handleDeleteChannel, if_neg hlen]
      intro hempty
      have hall : ∀ ch ∈ l, ch.id = cid := by
        intro ch hch
        simpa using List.filter_eq_nil_iff.mp hempty ch hch
      rcases l with _ | ⟨a, _ | ⟨b, rest⟩⟩
      · exact hlen (by simp)
      · exact hlen (by simp)
      · have ha : a.id = cid := hall a (by simp)
        have hb : b.id = cid := hall b (by simp)
        have hnotin : a.id ∉ (b :: rest).map Channel.id :=
          (List.nodup_cons.mp (by simpa using hnd)).1
        exact hnotin (by simp [ha, hb])

/-- Witness for C2 amended: a one-element list survives any delete, and
deleting one of the distinct-id seeded defaults leaves the rest. -/
theorem delete_floor_witness :
    handleDeleteChannel "w-general"
      [{ id := "c1", name := "general" : Channel }] =
      [{ id := "c1", name := "general" : Channel }] ∧
    handleDeleteChannel "w-general" (seedDefaults "w") ≠ [] :=
  ⟨(delete_floor "w-general" [{ id := "c1", name := "general" }]).1 rfl,
   (delete_floor "w-general" (seedDefaults "w")).2 (by decide) (by decide)⟩

/-- C4 counterexample: creating a channel named space-a in workspace w
appends a channel whose name is a, not the hyphen-a that lower-casing and
hyphenating the raw user-supplied name would give: the source trims the
name before slugifying it, but not the id. -/
theorem create_name_not_slug_counterexample :
    (handleCreateChannel "w" " a" []).map Channel.name ≠ [slugify " a"] := by
  decide

/-- C4 amended: for a name whose trim is nonempty, create appends one
channel whose id lower-cases and hyphenates the untrimmed name behind the
workspace-id prefix while its name lower-cases and hyphenates the trimmed
name; a whitespace-only name is a no-op; creating My Plan yields id
w-my-plan and name my-plan. -/
theorem create_channel_shape (w nm : String) (l : List Channel) :
    (jsTrim nm = "" → handleCreateChannel w nm l = l) ∧
    (jsTrim nm ≠ "" → handleCreateChannel w nm l =
      l ++ [{ id := w ++ "-" ++ slugify nm, name := slugify (jsTrim nm),
              description := some "" }]) ∧
    handleCreateChannel w "My Plan" l =
      l ++ [{ id := w ++ "-" ++ "my-plan", name := "my-plan",
              description := some "" }] := by
  refine ⟨fun h => by simp [handleCreateChannel, h],
          fun h => by simp [handleCreateChannel, h], ?_⟩
  have h1 : jsTrim "My Plan" = "My Plan" := by decide
  have h2 : slugify "My Plan" = "my-plan" := by decide
  simp [handleCreateChannel, h1, h2]

/-- Witness for C4 amended: a whitespace-only name, the name space-a and
the name My Plan, created into an empty list in workspace w. -/
theorem create_channel_shape_witness :
    handleCreateChannel "w" "   " [] = [] ∧
    handleCreateChannel "w" " a" [] =
      [] ++ [{ id := "w" ++ "-" ++ slugify " a", name := slugify (jsTrim " a"),
               description := some "" }] ∧
    handleCreateChannel "w" "My Plan" [] =
      [] ++ [{ id := "w" ++ "-" ++ "my-plan", name := "my-plan",
               description := some "" }] :=
  ⟨(create_channel_shape "w" "   " []).1 (by decide),
   (create_channel_shape "w" " a" []).2.1 (by decide),
   (create_channel_shape "w" "My Plan" []).2.2⟩

end Talon
